import Mathlib

/-!
Shallow embedding of `src/main.py` of the `jossytbot` repository: a Telegram
bot that validates YouTube links, probes available formats through an external
extraction library, renders a format menu, and downloads the chosen format.

Modelling conventions:
* The process-wide dict `user_context` is an association list from user id to
  session, with Python-dict update/delete semantics.
* Handler side effects (replies, message edits, the two external library
  calls, temporary-directory lifecycle, logging) are recorded as an emitted
  trace of `Action`s, in execution order.
* The two external extraction-library calls (format probe, download) are the
  fallible operations; their outcomes are parameters of the handlers
  (`Except`-valued), matching the two `try/except` sites of the source.
* Python float division in the progress hook is modelled exactly over `ℚ`;
  division by zero is modelled as the raised `ZeroDivisionError`.
-/

/-- One format descriptor from the probed metadata bag: the dict keys read by
`handle_youtube_link` (`format_id`, `ext`, `vcodec`, `format_note`), each
optional since the source reads them with `dict.get`. -/
structure Fmt where
  format_id : Option String
  ext : Option String
  vcodec : Option String
  format_note : Option String
  deriving DecidableEq, Repr

/-- The metadata bag returned by a successful probe (`extract_info` with
`download=False`): the fields the source reads (`title`, `formats`). -/
structure Info where
  title : String
  formats : List Fmt
  deriving DecidableEq, Repr

/-- A per-user session, as stored in `user_context[user_id]`:
`{'link': text, 'info': info}` (line 107 of `main.py`). -/
structure Session where
  link : String
  info : Info
  deriving DecidableEq, Repr

/-- The `user_context` dict: an association list from user id to session. -/
abbrev Sessions := List (Nat × Session)

/-- `user_context.get(user_id)` / `user_id in user_context`: first-match
lookup (unique under the dict key invariant). -/
def lookupSession : Sessions → Nat → Option Session
  | [], _ => none
  | (k, v) :: rest, uid => if k = uid then some v else lookupSession rest uid

/-- `user_context[user_id] = s`: Python dict update — replace the binding in
place when the key exists, append otherwise. -/
def insertSession : Sessions → Nat → Session → Sessions
  | [], uid, s => [(uid, s)]
  | (k, v) :: rest, uid, s =>
      if k = uid then (uid, s) :: rest else (k, v) :: insertSession rest uid s

/-- `del user_context[user_id]`: remove the binding for the key. -/
def eraseSession (m : Sessions) (uid : Nat) : Sessions :=
  m.filter (fun p => p.1 != uid)

/-- The keys of the session map. -/
def sessionKeys (m : Sessions) : List Nat := m.map Prod.fst

/-- The whitespace characters `str.strip()` removes (ASCII subset). -/
def pyIsSpace (c : Char) : Bool :=
  c == ' ' || c == '\t' || c == '\n' || c == '\r' ||
  c == '\u000B' || c == '\u000C'

/-- Strip leading and trailing whitespace from a character list. -/
def stripChars (l : List Char) : List Char :=
  ((l.dropWhile pyIsSpace).reverse.dropWhile pyIsSpace).reverse

/-- Python `text.strip()` on the code points of the string. -/
def pyStrip (s : String) : String := String.mk (stripChars s.data)

/-- `leadsChars pat l`: `pat` is an initial run of `l`. -/
def leadsChars : List Char → List Char → Bool
  | [], _ => true
  | _ :: _, [] => false
  | c :: cs, d :: ds => c == d && leadsChars cs ds

/-- `pat` occurs contiguously somewhere in the list. -/
def infixChars (pat : List Char) : List Char → Bool
  | [] => pat.isEmpty
  | c :: rest => leadsChars pat (c :: rest) || infixChars pat rest

/-- Python `sub in t`: substring containment on the code points. -/
def containsSub (t sub : String) : Bool := infixChars sub.data t.data

/-- Python `s.endswith(suffix)` on the code points. -/
def pyEndsWith (s suffix : String) : Bool :=
  leadsChars suffix.data.reverse s.data.reverse

/-- Python `s[:n]`: the first `n` code points. -/
def pyTake (s : String) (n : Nat) : String := String.mk (s.data.take n)

/-- Line 94: warning for a message without a recognized domain substring. -/
def linkWarnMsg : String :=
  "⚠️ Please send a valid YouTube link (youtube.com or youtu.be)"

/-- Line 98: the probing in-progress reply. -/
def analyzingMsg : String := "🔍 Analyzing video formats... (10-30 seconds)"

/-- Line 42: callback answer when no session exists for the user. -/
def noSessionWarnMsg : String := "⚠️ Please send a YouTube link first!"

/-- Line 46: the download in-progress indicator. -/
def downloadingMsg : String :=
  "⏳ Downloading your file... (this may take 10-60 seconds)"

/-- Line 81: the completion indicator. -/
def completeMsg : String := "✅ Download complete! (You can send another link)"

/-- Lines 24-27: the welcome text of the `/start` command. -/
def welcomeMsg : String :=
  "👋 Welcome to YouTube Downloader Bot!\n\n" ++
  "👉 *Send any YouTube link* to start\n\n" ++
  "⚡ *Works with all formats*: Video, Audio (MP3), 1080p, 4K & more"

/-- Lines 132-133: the menu header over the probed title. -/
def selectMsg (title : String) : String :=
  "✅ *" ++ title ++ "*\n\n🎯 *Select your format:*"

/-- One observable side effect of a handler, in execution order. A button is
a `(label, callback payload)` pair; a keyboard is a list of button rows. -/
inductive Act where
  /-- `reply_text` with no keyboard. -/
  | replyText (s : String)
  /-- `reply_text` with an inline keyboard. -/
  | replyMarkup (s : String) (keyboard : List (List (String × String)))
  /-- `query.answer`. -/
  | answerCb (s : String)
  /-- `query.message.edit_text` of a fixed string. -/
  | editText (s : String)
  /-- A progress edit from the hook; carries the exact ratio
  `downloaded_bytes / total_bytes` rendered by the f-string. -/
  | editProgress (ratio : ℚ)
  /-- Entering the `tempfile.TemporaryDirectory()` context. -/
  | tmpCreate
  /-- Releasing the temporary directory (context exit). -/
  | tmpRelease
  /-- The external probe call `extract_info(text, download=False)`. -/
  | probe (url : String)
  /-- The external download call `extract_info(link, download=True)`. -/
  | download (url : String) (formatId : String)
  /-- `reply_audio(open(path), title=..., performer=...)`. -/
  | sendAudio (path title performer : String)
  /-- `reply_video(open(path), caption=...)`. -/
  | sendVideo (path caption : String)
  /-- `del user_context[user_id]`. -/
  | delSession (uid : Nat)
  /-- `logger.error`. -/
  | logError (s : String)
  deriving DecidableEq, Repr

/-- One dict reported to a progress hook by the download call: the `status`
key is indexed directly (`d['status']`), the byte counters are read with
`dict.get` and so may be absent. -/
structure ProgressEvent where
  status : String
  downloaded_bytes : Option Int
  total_bytes : Option Int
  deriving DecidableEq, Repr

/-- The progress hook of lines 56-58: on a `'downloading'` event it computes
`d.get('downloaded_bytes', 0) / d.get('total_bytes', 1)` and edits the
message; on any other status it does nothing (`else None`). Python division
by zero raises `ZeroDivisionError`, modelled as the `error` case; otherwise
the exact ratio is returned. -/
def progressHook (d : ProgressEvent) : Except String (Option ℚ) :=
  if d.status = "downloading" then
    let db : Int := d.downloaded_bytes.getD 0
    let tb : Int := d.total_bytes.getD 1
    if tb = 0 then .error "ZeroDivisionError: division by zero"
    else .ok (some ((db : ℚ) / (tb : ℚ)))
  else .ok none

/-- Run the progress hook over the events reported during a download, in
order: the emitted message edits, and the exception message of the first
hook that raises, if any (a raising hook aborts the download). -/
def runHooks : List ProgressEvent → List Act × Option String
  | [] => ([], none)
  | d :: ds =>
      match progressHook d with
      | .error z => ([], some z)
      | .ok none => runHooks ds
      | .ok (some q) => (.editProgress q :: (runHooks ds).1, (runHooks ds).2)

/-- The data the source reads from a completed download: the prepared file
path (line 63) and the `title` / `uploader` fields of the returned info
(lines 69-70, 75). -/
structure DlOk where
  filePath : String
  title : String
  uploader : String
  deriving DecidableEq, Repr

/-- Outcome of the external download call `extract_info(link, download=True)`:
in both cases the events reported to the progress hook, then either the
result or the exception message raised by the library. -/
inductive DlOutcome where
  | ok (events : List ProgressEvent) (res : DlOk)
  | err (events : List ProgressEvent) (msg : String)
  deriving DecidableEq, Repr

/-- The observable behaviour of the download call including its hooks: the
progress edits emitted, then the overall result — a hook that raises turns
a would-be success into that exception. -/
def dlRun (dl : DlOutcome) : List Act × Except String DlOk :=
  match dl with
  | .ok events res =>
      ((runHooks events).1,
       match (runHooks events).2 with
       | none => .ok res
       | some z => .error z)
  | .err events msg =>
      ((runHooks events).1,
       match (runHooks events).2 with
       | none => .error msg
       | some z => .error z)

/-- Line 66: `file_path.endswith(('.mp3', '.m4a', '.opus', '.webm'))`. -/
def isAudioPath (p : String) : Bool :=
  pyEndsWith p ".mp3" || pyEndsWith p ".m4a" || pyEndsWith p ".opus" ||
  pyEndsWith p ".webm"

/-- Lines 66-77: dispatch the produced file as audio or video. -/
def dispatchAct (r : DlOk) : Act :=
  if isAudioPath r.filePath then .sendAudio r.filePath r.title r.uploader
  else .sendVideo r.filePath ("✅ " ++ r.title)

/-- `format_selected` (lines 34-85): handle a button press carrying a format
identifier. `dl` is the outcome the external download call would have for
this session; it is consulted only when the call is made. Returns the new
session map and the emitted trace. -/
def format_selected (uid : Nat) (formatId : String) (dl : DlOutcome)
    (sessions : Sessions) : Sessions × List Act :=
  match lookupSession sessions uid with
  | none => (sessions, [.answerCb noSessionWarnMsg])
  | some sess =>
      let pre : List Act :=
        .editText downloadingMsg :: .tmpCreate ::
        .download sess.link formatId :: (dlRun dl).1
      match (dlRun dl).2 with
      | .error e =>
          (sessions,
           pre ++ [.tmpRelease, .logError ("Download error: " ++ e),
                   .editText ("❌ Failed: " ++ pyTake e 100)])
      | .ok r =>
          (eraseSession sessions uid,
           pre ++ [dispatchAct r, .tmpRelease, .delSession uid,
                   .editText completeMsg])

/-- Python truthiness of an optional string value: falsy when the key is
absent or the value is the empty string. -/
def falsyStr : Option String → Bool
  | none => true
  | some s => s = ""

/-- The format-list loop of lines 110-122: skip descriptors whose
`format_id` or `ext` is falsy, label the rest (video glyph when
`vcodec != 'none'`, audio glyph otherwise), keep encounter order. -/
def buildFormats : List Fmt → List (String × String)
  | [] => []
  | f :: fs =>
      if falsyStr f.format_id || falsyStr f.ext then buildFormats fs
      else
        let label :=
          if f.vcodec ≠ some "none" then
            "🎬 " ++ f.format_note.getD "Unknown" ++ " (" ++ f.ext.getD "" ++ ")"
          else
            "🔊 " ++ f.format_note.getD "Audio" ++ " (" ++ f.ext.getD "" ++ ")"
        (label, f.format_id.getD "") :: buildFormats fs

/-- Lines 110-127: the rendered menu as (label, format id) pairs — the
built list limited to the first 15 (`formats[:15]`). -/
def renderMenu (info : Info) : List (String × String) :=
  (buildFormats info.formats).take 15

/-- Lines 125-128: the inline keyboard, one button per row. -/
def menuKeyboard (info : Info) : List (List (String × String)) :=
  (renderMenu info).map (fun b => [b])

/-- `handle_youtube_link` (lines 87-140): validate the text, probe the
formats, store the session and show the menu. `probeRes` is the outcome the
external probe call would have; it is consulted only when the call is made. -/
def handle_youtube_link (uid : Nat) (text : String)
    (probeRes : Except String Info) (sessions : Sessions) :
    Sessions × List Act :=
  let t := pyStrip text
  if !(containsSub t "youtube.com" || containsSub t "youtu.be") then
    (sessions, [.replyText linkWarnMsg])
  else
    match probeRes with
    | .error e =>
        (sessions,
         [.replyText analyzingMsg, .probe t,
          .logError ("Format error: " ++ e),
          .replyText ("❌ Failed to get formats: " ++ pyTake e 100)])
    | .ok info =>
        (insertSession sessions uid { link := t, info := info },
         [.replyText analyzingMsg, .probe t,
          .replyMarkup (selectMsg info.title) (menuKeyboard info)])

/-- `start` (lines 22-32): the static welcome message with its single
`Get Started` button whose callback payload is the literal `'start'`. -/
def start_actions : List Act :=
  [.replyMarkup welcomeMsg [[("🚀 Get Started", "start")]]]

/-- The three inbound event kinds the dispatcher routes (lines 146-151). -/
inductive Event where
  | cmdStart (uid : Nat)
  | callback (uid : Nat) (data : String)
  | textMsg (uid : Nat) (text : String)
  deriving DecidableEq, Repr

/-- The dispatcher (lines 146-151): `/start` to `start`, every callback
query to `format_selected` with the payload as format id, and url-entity
text messages to `handle_youtube_link`. -/
def dispatch (e : Event) (dl : DlOutcome) (probeRes : Except String Info)
    (sessions : Sessions) : Sessions × List Act :=
  match e with
  | .cmdStart _ => (sessions, start_actions)
  | .callback uid data => format_selected uid data dl sessions
  | .textMsg uid text => handle_youtube_link uid text probeRes sessions

/-- Session maps reachable from the initial empty `user_context` by any
sequence of dispatched events with any external-call outcomes. -/
inductive Reachable : Sessions → Prop
  | init : Reachable []
  | step (m : Sessions) (e : Event) (dl : DlOutcome)
      (probeRes : Except String Info) :
      Reachable m → Reachable (dispatch e dl probeRes m).1

/-- The events the download call reported to the progress hook. -/
def dlEvents : DlOutcome → List ProgressEvent
  | .ok events _ => events
  | .err events _ => events

/-- Specification-side reading of the menu transform (§4.4 / C2): a
descriptor is dropped when its format identifier or extension is missing
(Python-falsy), and otherwise mapped to its labelled pair — video glyph when
the video codec is not the string `none`, audio glyph otherwise. -/
def menuEntry (f : Fmt) : Option (String × String) :=
  if falsyStr f.format_id || falsyStr f.ext then none
  else
    some
      (if f.vcodec ≠ some "none" then
        "🎬 " ++ f.format_note.getD "Unknown" ++ " (" ++ f.ext.getD "" ++ ")"
      else
        "🔊 " ++ f.format_note.getD "Audio" ++ " (" ++ f.ext.getD "" ++ ")",
       f.format_id.getD "")

/-- Specification-side reading of one progress edit (C7): a chunk whose
status is `downloading` produces one message edit with the computed ratio,
any other chunk produces nothing. -/
def progressEditSpec (d : ProgressEvent) : Option Act :=
  if d.status = "downloading" then
    some (.editProgress
      ((d.downloaded_bytes.getD 0 : ℚ) / (d.total_bytes.getD 1 : ℚ)))
  else none

-- ===== Helper lemmas on the session map =====

theorem lookup_insert_self (m : Sessions) (uid : Nat) (s : Session) :
    lookupSession (insertSession m uid s) uid = some s := by
  induction m with
  | nil => simp [insertSession, lookupSession]
  | cons p rest ih =>
      obtain ⟨k, v⟩ := p
      by_cases h : k = uid
      · simp [insertSession, h, lookupSession]
      · simp [insertSession, h, lookupSession, ih]

theorem lookup_erase_self (m : Sessions) (uid : Nat) :
    lookupSession (eraseSession m uid) uid = none := by
  induction m with
  | nil => simp [eraseSession, lookupSession]
  | cons p rest ih =>
      obtain ⟨k, v⟩ := p
      by_cases h : k = uid
      · simpa [eraseSession, List.filter_cons, h] using ih
      · simpa [eraseSession, List.filter_cons, h, lookupSession] using ih

theorem keys_erase_sublist (m : Sessions) (uid : Nat) :
    List.Sublist (sessionKeys (eraseSession m uid)) (sessionKeys m) :=
  (List.filter_sublist m).map Prod.fst

theorem keys_insert (m : Sessions) (uid : Nat) (s : Session) :
    sessionKeys (insertSession m uid s) =
      if uid ∈ sessionKeys m then sessionKeys m
      else sessionKeys m ++ [uid] := by
  induction m with
  | nil => simp [insertSession, sessionKeys]
  | cons p rest ih =>
      obtain ⟨k, v⟩ := p
      simp only [sessionKeys] at ih ⊢
      by_cases hk : k = uid
      · subst hk
        simp [insertSession]
      · have huk : ¬ uid = k := fun e => hk e.symm
        simp only [insertSession, if_neg hk, List.map_cons, List.mem_cons,
          huk, false_or]
        rw [ih]
        by_cases hm : uid ∈ List.map Prod.fst rest
        · simp [hm]
        · simp [hm]

theorem nodup_keys_insert (m : Sessions) (uid : Nat) (s : Session)
    (h : (sessionKeys m).Nodup) :
    (sessionKeys (insertSession m uid s)).Nodup := by
  rw [keys_insert]
  by_cases hm : uid ∈ sessionKeys m
  · simpa [hm] using h
  · simp [hm, List.nodup_append, h]

theorem nodup_keys_format_selected (uid : Nat) (fid : String)
    (dl : DlOutcome) (m : Sessions) (h : (sessionKeys m).Nodup) :
    (sessionKeys (format_selected uid fid dl m).1).Nodup := by
  cases hl : lookupSession m uid with
  | none => simpa [format_selected, hl] using h
  | some sess =>
      cases hres : (dlRun dl).2 with
      | error e => simpa [format_selected, hl, hres] using h
      | ok r =>
          simp only [format_selected, hl, hres]
          exact ((keys_erase_sublist m uid).nodup) h

theorem nodup_keys_handle_link (uid : Nat) (text : String)
    (probeRes : Except String Info) (m : Sessions)
    (h : (sessionKeys m).Nodup) :
    (sessionKeys (handle_youtube_link uid text probeRes m).1).Nodup := by
  simp only [handle_youtube_link]
  split
  · exact h
  · split
    · exact h
    · exact nodup_keys_insert m uid _ h

theorem nodup_keys_dispatch (e : Event) (dl : DlOutcome)
    (probeRes : Except String Info) (m : Sessions)
    (h : (sessionKeys m).Nodup) :
    (sessionKeys (dispatch e dl probeRes m).1).Nodup := by
  cases e with
  | cmdStart uid => simpa [dispatch] using h
  | callback uid data =>
      simpa [dispatch] using nodup_keys_format_selected uid data dl m h
  | textMsg uid text =>
      simpa [dispatch] using nodup_keys_handle_link uid text probeRes m h

theorem reachable_nodup_keys (m : Sessions) (h : Reachable m) :
    (sessionKeys m).Nodup := by
  induction h with
  | init => simp [sessionKeys]
  | step m e dl probeRes _ ih => exact nodup_keys_dispatch e dl probeRes m ih

-- ===== Helper lemmas on the progress hooks =====

theorem runHooks_all_progress (events : List ProgressEvent) :
    ∀ a ∈ (runHooks events).1, ∃ q, a = Act.editProgress q := by
  induction events with
  | nil => simp [runHooks]
  | cons d ds ih =>
      cases hp : progressHook d with
      | error z => simp [runHooks, hp]
      | ok o =>
          cases o with
          | none => simpa [runHooks, hp] using ih
          | some q =>
              intro a ha
              simp only [runHooks, hp, List.mem_cons] at ha
              rcases ha with rfl | ha
              · exact ⟨q, rfl⟩
              · exact ih a ha

theorem runHooks_eq_filterMap (events : List ProgressEvent)
    (h : (runHooks events).2 = none) :
    (runHooks events).1 = events.filterMap progressEditSpec := by
  induction events with
  | nil => simp [runHooks]
  | cons d ds ih =>
      by_cases hs : d.status = "downloading"
      · by_cases hz : (d.total_bytes.getD 1 : Int) = 0
        · simp [runHooks, progressHook, hs, hz] at h
        · have h2 : (runHooks ds).2 = none := by
            simpa [runHooks, progressHook, hs, hz] using h
          simp [runHooks, progressHook, hs, hz, progressEditSpec, ih h2]
      · have h2 : (runHooks ds).2 = none := by
          simpa [runHooks, progressHook, hs] using h
        simp [runHooks, progressHook, hs, progressEditSpec, ih h2]

-- ===== Helper lemmas on the menu transform =====

theorem buildFormats_eq_filterMap (l : List Fmt) :
    buildFormats l = l.filterMap menuEntry := by
  induction l with
  | nil => simp [buildFormats]
  | cons f fs ih =>
      by_cases h : (falsyStr f.format_id || falsyStr f.ext) = true
      · simp [buildFormats, h, menuEntry, ih]
      · simp [buildFormats, h, menuEntry, ih]

theorem append_ne_empty_left (g s : String) (hg : g.length ≠ 0) :
    g ++ s ≠ "" := by
  intro h
  have hl := congrArg String.length h
  rw [String.length_append] at hl
  have h0 : String.length "" = 0 := rfl
  rw [h0] at hl
  omega

theorem buildFormats_mem_ne_empty (l : List Fmt) :
    ∀ p ∈ buildFormats l, p.1 ≠ "" ∧ p.2 ≠ "" := by
  induction l with
  | nil => simp [buildFormats]
  | cons f fs ih =>
      by_cases h : (falsyStr f.format_id || falsyStr f.ext) = true
      · simpa [buildFormats, h] using ih
      · intro p hp
        rw [buildFormats] at hp
        rw [if_neg h] at hp
        rcases List.mem_cons.mp hp with rfl | hp
        · have hfid : falsyStr f.format_id = false := by
            cases hb : falsyStr f.format_id
            · rfl
            · simp [hb] at h
          constructor
          · by_cases hv : f.vcodec ≠ some "none"
            · simp only [if_pos hv]
              rw [String.append_assoc, String.append_assoc,
                String.append_assoc]
              exact append_ne_empty_left _ _ (by decide)
            · simp only [if_neg hv]
              rw [String.append_assoc, String.append_assoc,
                String.append_assoc]
              exact append_ne_empty_left _ _ (by decide)
          · cases hid : f.format_id with
            | none => simp [falsyStr, hid] at hfid
            | some s =>
                simp only [falsyStr, hid, decide_eq_false_iff_not] at hfid
                simpa [hid] using hfid
        · exact ih p hp

theorem dlRun_all_progress (dl : DlOutcome) :
    ∀ a ∈ (dlRun dl).1, ∃ q, a = Act.editProgress q := by
  cases dl with
  | ok events res => simpa [dlRun] using runHooks_all_progress events
  | err events msg => simpa [dlRun] using runHooks_all_progress events

theorem format_selected_ok_trace (uid : Nat) (fid : String) (dl : DlOutcome)
    (m : Sessions) (sess : Session) (r : DlOk)
    (h : lookupSession m uid = some sess)
    (hdl : (dlRun dl).2 = Except.ok r) :
    format_selected uid fid dl m =
      (eraseSession m uid,
       Act.editText downloadingMsg :: Act.tmpCreate ::
       Act.download sess.link fid ::
       ((dlRun dl).1 ++
        [dispatchAct r, Act.tmpRelease, Act.delSession uid,
         Act.editText completeMsg])) := by
  simp [format_selected, h, hdl]

theorem format_selected_err_trace (uid : Nat) (fid : String) (dl : DlOutcome)
    (m : Sessions) (sess : Session) (e : String)
    (h : lookupSession m uid = some sess)
    (hdl : (dlRun dl).2 = Except.error e) :
    format_selected uid fid dl m =
      (m,
       Act.editText downloadingMsg :: Act.tmpCreate ::
       Act.download sess.link fid ::
       ((dlRun dl).1 ++
        [Act.tmpRelease, Act.logError ("Download error: " ++ e),
         Act.editText ("❌ Failed: " ++ pyTake e 100)])) := by
  simp [format_selected, h, hdl]

-- ===== Claim theorems =====

/-- C1: after a download attempt triggered by a format-selection event for a
user with an active session, if the download call (the only fallible step,
including its hooks and the file dispatch it feeds) succeeds, the session
for that user is absent from the session map afterwards; if it raises, the
session is still present afterwards. -/
theorem format_selected_session_cleanup (uid : Nat) (fid : String)
    (dl : DlOutcome) (m : Sessions) (sess : Session)
    (h : lookupSession m uid = some sess) :
    ((∃ r, (dlRun dl).2 = Except.ok r) →
      lookupSession (format_selected uid fid dl m).1 uid = none) ∧
    ((∃ e, (dlRun dl).2 = Except.error e) →
      lookupSession (format_selected uid fid dl m).1 uid = some sess) := by
  constructor
  · rintro ⟨r, hr⟩
    simp [format_selected, h, hr, lookup_erase_self]
  · rintro ⟨e, he⟩
    simp [format_selected, h, he]

/-- Witness for C1 at a concrete session map, one successful and one failed
download. -/
theorem format_selected_session_cleanup_witness :
    lookupSession (format_selected 1 "22" (DlOutcome.ok [] ⟨"v.mp4", "T", "U"⟩)
      [(1, ⟨"https://youtu.be/x", ⟨"T", []⟩⟩)]).1 1 = none ∧
    lookupSession (format_selected 1 "22" (DlOutcome.err [] "boom")
      [(1, ⟨"https://youtu.be/x", ⟨"T", []⟩⟩)]).1 1 =
      some ⟨"https://youtu.be/x", ⟨"T", []⟩⟩ :=
  ⟨(format_selected_session_cleanup 1 "22" (DlOutcome.ok [] ⟨"v.mp4", "T", "U"⟩)
      [(1, ⟨"https://youtu.be/x", ⟨"T", []⟩⟩)] ⟨"https://youtu.be/x", ⟨"T", []⟩⟩
      (by decide)).1 ⟨⟨"v.mp4", "T", "U"⟩, rfl⟩,
   (format_selected_session_cleanup 1 "22" (DlOutcome.err [] "boom")
      [(1, ⟨"https://youtu.be/x", ⟨"T", []⟩⟩)] ⟨"https://youtu.be/x", ⟨"T", []⟩⟩
      (by decide)).2 ⟨"boom", rfl⟩⟩

/-- C3: a format-selection event from a user with no entry in the session
map answers the callback with the send-a-link-first warning and returns:
the session map is unchanged, no download call is made, and no temporary
directory is created. -/
theorem no_session_guard (uid : Nat) (fid : String) (dl : DlOutcome)
    (m : Sessions) (h : lookupSession m uid = none) :
    format_selected uid fid dl m = (m, [Act.answerCb noSessionWarnMsg]) ∧
    (∀ url f, Act.download url f ∉ (format_selected uid fid dl m).2) ∧
    Act.tmpCreate ∉ (format_selected uid fid dl m).2 := by
  refine ⟨by simp [format_selected, h], ?_, ?_⟩
  · intro url f
    simp [format_selected, h]
  · simp [format_selected, h]

/-- Witness for C3: button payload `22` with an empty session map. -/
theorem no_session_guard_witness :
    format_selected 9 "22" (DlOutcome.ok [] ⟨"v.mp4", "T", "U"⟩) [] =
      ([], [Act.answerCb noSessionWarnMsg]) ∧
    Act.tmpCreate ∉
      (format_selected 9 "22" (DlOutcome.ok [] ⟨"v.mp4", "T", "U"⟩) []).2 :=
  ⟨(no_session_guard 9 "22" (DlOutcome.ok [] ⟨"v.mp4", "T", "U"⟩) [] rfl).1,
   (no_session_guard 9 "22" (DlOutcome.ok [] ⟨"v.mp4", "T", "U"⟩) [] rfl).2.2⟩

/-- C4: a message text containing neither recognized domain substring after
stripping is rejected with a user-visible warning — no probe call, no
session change; a text containing at least one substring proceeds to the
probe call. -/
theorem link_validation (uid : Nat) (text : String)
    (probeRes : Except String Info) (m : Sessions) :
    ((containsSub (pyStrip text) "youtube.com" = false ∧
      containsSub (pyStrip text) "youtu.be" = false) →
      handle_youtube_link uid text probeRes m =
        (m, [Act.replyText linkWarnMsg]) ∧
      ∀ url, Act.probe url ∉ (handle_youtube_link uid text probeRes m).2) ∧
    ((containsSub (pyStrip text) "youtube.com" = true ∨
      containsSub (pyStrip text) "youtu.be" = true) →
      Act.probe (pyStrip text) ∈ (handle_youtube_link uid text probeRes m).2) := by
  constructor
  · rintro ⟨h1, h2⟩
    constructor
    · simp [handle_youtube_link, h1, h2]
    · intro url
      simp [handle_youtube_link, h1, h2]
  · intro h
    have hb : (containsSub (pyStrip text) "youtube.com" ||
        containsSub (pyStrip text) "youtu.be") = true := by
      rcases h with h | h <;> simp [h]
    cases probeRes with
    | error e => simp [handle_youtube_link, hb]
    | ok info => simp [handle_youtube_link, hb]

/-- Witness for C4: a rejected plain text, and an accepted short-domain
link surrounded by whitespace. -/
theorem link_validation_witness :
    handle_youtube_link 1 "hello there" (Except.error "x") [] =
      ([], [Act.replyText linkWarnMsg]) ∧
    Act.probe (pyStrip " https://youtu.be/abc ") ∈
      (handle_youtube_link 1 " https://youtu.be/abc "
        (Except.ok ⟨"T", []⟩) []).2 :=
  ⟨((link_validation 1 "hello there" (Except.error "x") []).1
      ⟨by decide, by decide⟩).1,
   (link_validation 1 " https://youtu.be/abc " (Except.ok ⟨"T", []⟩) []).2
      (Or.inr (by decide))⟩

/-- C5: when the probe call raises, the exception is logged and surfaced to
the user truncated to 100 characters, and the session map — in particular
the entry for this user — is unchanged. -/
theorem probe_failure_no_session (uid : Nat) (text : String) (e : String)
    (m : Sessions)
    (hacc : containsSub (pyStrip text) "youtube.com" = true ∨
      containsSub (pyStrip text) "youtu.be" = true) :
    (handle_youtube_link uid text (Except.error e) m).1 = m ∧
    lookupSession (handle_youtube_link uid text (Except.error e) m).1 uid =
      lookupSession m uid ∧
    (handle_youtube_link uid text (Except.error e) m).2 =
      [Act.replyText analyzingMsg, Act.probe (pyStrip text),
       Act.logError ("Format error: " ++ e),
       Act.replyText ("❌ Failed to get formats: " ++ pyTake e 100)] := by
  have hb : (containsSub (pyStrip text) "youtube.com" ||
      containsSub (pyStrip text) "youtu.be") = true := by
    rcases hacc with h | h <;> simp [h]
  refine ⟨?_, ?_, ?_⟩ <;> simp [handle_youtube_link, hb]

/-- Witness for C5: a failing probe on a valid link with a long error
message; the map stays empty and the reply is truncated. -/
theorem probe_failure_no_session_witness :
    (handle_youtube_link 3 "https://youtube.com/watch?v=z"
      (Except.error "boom") []).1 = [] :=
  (probe_failure_no_session 3 "https://youtube.com/watch?v=z" "boom" []
    (Or.inl (by decide))).1

/-- C2: the rendered menu is the descriptor list filtered of entries whose
format identifier or extension is missing (Python-falsy), labelled with the
video glyph when the video codec is not the string `none` and the audio
glyph otherwise, in encounter order, truncated to the first 15; every kept
entry has a non-empty label and non-empty format identifier. -/
theorem menu_rendering_spec (info : Info) :
    renderMenu info = (info.formats.filterMap menuEntry).take 15 ∧
    (renderMenu info).length ≤ 15 ∧
    ∀ p ∈ renderMenu info, p.1 ≠ "" ∧ p.2 ≠ "" := by
  refine ⟨?_, ?_, ?_⟩
  · rw [renderMenu, buildFormats_eq_filterMap]
  · rw [renderMenu]
    exact List.length_take_le 15 _
  · intro p hp
    rw [renderMenu] at hp
    exact buildFormats_mem_ne_empty info.formats p
      ((List.take_sublist 15 _).subset hp)

/-- Witness for C2: a two-descriptor bag, one video and one audio entry. -/
theorem menu_rendering_spec_witness :
    renderMenu ⟨"T", [⟨some "22", some "mp4", some "avc1", some "720p"⟩,
        ⟨some "251", some "webm", some "none", none⟩,
        ⟨none, some "mp4", some "avc1", some "1080p"⟩]⟩ =
      [("🎬 720p (mp4)", "22"), ("🔊 Audio (webm)", "251")] ∧
    ("🎬 720p (mp4)" : String) ≠ "" ∧ ("22" : String) ≠ "" :=
  ⟨by decide,
   (menu_rendering_spec ⟨"T",
      [⟨some "22", some "mp4", some "avc1", some "720p"⟩,
       ⟨some "251", some "webm", some "none", none⟩,
       ⟨none, some "mp4", some "avc1", some "1080p"⟩]⟩).2.2
     ("🎬 720p (mp4)", "22") (by decide)⟩

/-- C6: with an active session and a successful download, the produced file
is sent through the audio path iff its path ends with one of `.mp3`,
`.m4a`, `.opus`, `.webm`; every other path is sent through the video path
with the checkmark caption. -/
theorem dispatch_by_extension (uid : Nat) (fid : String) (dl : DlOutcome)
    (m : Sessions) (sess : Session) (r : DlOk)
    (h : lookupSession m uid = some sess)
    (hdl : (dlRun dl).2 = Except.ok r) :
    (Act.sendAudio r.filePath r.title r.uploader ∈
        (format_selected uid fid dl m).2 ↔
      (pyEndsWith r.filePath ".mp3" || pyEndsWith r.filePath ".m4a" ||
       pyEndsWith r.filePath ".opus" ||
       pyEndsWith r.filePath ".webm") = true) ∧
    ((pyEndsWith r.filePath ".mp3" || pyEndsWith r.filePath ".m4a" ||
      pyEndsWith r.filePath ".opus" ||
      pyEndsWith r.filePath ".webm") = false →
      Act.sendVideo r.filePath ("✅ " ++ r.title) ∈
        (format_selected uid fid dl m).2) := by
  have ht := format_selected_ok_trace uid fid dl m sess r h hdl
  have hhooks := dlRun_all_progress dl
  constructor
  · constructor
    · intro hmem
      by_cases hb : isAudioPath r.filePath = true
      · simpa [isAudioPath] using hb
      · exfalso
        rw [Bool.not_eq_true] at hb
        rw [ht] at hmem
        simp [dispatchAct, hb] at hmem
        obtain ⟨q, hq⟩ := hhooks _ hmem
        exact Act.noConfusion hq
    · intro hb
      have hb' : isAudioPath r.filePath = true := by
        simpa [isAudioPath] using hb
      rw [ht]
      simp [dispatchAct, hb']
  · intro hb
    have hb' : isAudioPath r.filePath = false := by
      simpa [isAudioPath] using hb
    rw [ht]
    simp [dispatchAct, hb']

/-- Witness for C6: an `.mp3` download dispatched as audio and an `.mp4`
download dispatched as video. -/
theorem dispatch_by_extension_witness :
    Act.sendAudio "x.mp3" "T" "U" ∈
      (format_selected 1 "140" (DlOutcome.ok [] ⟨"x.mp3", "T", "U"⟩)
        [(1, ⟨"L", ⟨"T", []⟩⟩)]).2 ∧
    Act.sendVideo "x.mp4" ("✅ " ++ "T") ∈
      (format_selected 1 "22" (DlOutcome.ok [] ⟨"x.mp4", "T", "U"⟩)
        [(1, ⟨"L", ⟨"T", []⟩⟩)]).2 :=
  ⟨(dispatch_by_extension 1 "140" (DlOutcome.ok [] ⟨"x.mp3", "T", "U"⟩)
      [(1, ⟨"L", ⟨"T", []⟩⟩)] ⟨"L", ⟨"T", []⟩⟩ ⟨"x.mp3", "T", "U"⟩
      (by decide) rfl).1.mpr (by decide),
   (dispatch_by_extension 1 "22" (DlOutcome.ok [] ⟨"x.mp4", "T", "U"⟩)
      [(1, ⟨"L", ⟨"T", []⟩⟩)] ⟨"L", ⟨"T", []⟩⟩ ⟨"x.mp4", "T", "U"⟩
      (by decide) rfl).2 (by decide)⟩

/-- C7: with an active session, the side effects occur in order — edit to
the in-progress indicator, create the scoped temporary directory, invoke
the download (its hooks editing the message once per `downloading` chunk),
then on success dispatch the file, release the directory, delete the
session and edit to the completion indicator; on an exception the directory
is released during unwinding before the error edit. The directory release
appears in the trace on both exit paths. -/
theorem download_effect_order (uid : Nat) (fid : String) (dl : DlOutcome)
    (m : Sessions) (sess : Session)
    (h : lookupSession m uid = some sess) :
    (∀ r, (dlRun dl).2 = Except.ok r →
      format_selected uid fid dl m =
        (eraseSession m uid,
         Act.editText downloadingMsg :: Act.tmpCreate ::
         Act.download sess.link fid ::
         ((dlRun dl).1 ++
          [dispatchAct r, Act.tmpRelease, Act.delSession uid,
           Act.editText completeMsg]))) ∧
    (∀ e, (dlRun dl).2 = Except.error e →
      format_selected uid fid dl m =
        (m,
         Act.editText downloadingMsg :: Act.tmpCreate ::
         Act.download sess.link fid ::
         ((dlRun dl).1 ++
          [Act.tmpRelease, Act.logError ("Download error: " ++ e),
           Act.editText ("❌ Failed: " ++ pyTake e 100)]))) ∧
    Act.tmpRelease ∈ (format_selected uid fid dl m).2 ∧
    ((runHooks (dlEvents dl)).2 = none →
      (dlRun dl).1 = (dlEvents dl).filterMap progressEditSpec) := by
  refine ⟨?_, ?_, ?_, ?_⟩
  · intro r hr
    exact format_selected_ok_trace uid fid dl m sess r h hr
  · intro e he
    exact format_selected_err_trace uid fid dl m sess e h he
  · cases hres : (dlRun dl).2 with
    | ok r =>
        rw [format_selected_ok_trace uid fid dl m sess r h hres]
        simp
    | error e =>
        rw [format_selected_err_trace uid fid dl m sess e h hres]
        simp
  · intro hn
    cases dl with
    | ok events res =>
        simpa [dlRun] using
          runHooks_eq_filterMap events (by simpa [dlEvents] using hn)
    | err events msg =>
        simpa [dlRun] using
          runHooks_eq_filterMap events (by simpa [dlEvents] using hn)

/-- Witness for C7: a concrete successful download with one progress chunk;
the trace is the claimed sequence. -/
theorem download_effect_order_witness :
    format_selected 1 "22"
      (DlOutcome.ok [⟨"downloading", some 1, some 2⟩] ⟨"v.mp4", "T", "U"⟩)
      [(1, ⟨"L", ⟨"T", []⟩⟩)] =
      (eraseSession [(1, ⟨"L", ⟨"T", []⟩⟩)] 1,
       Act.editText downloadingMsg :: Act.tmpCreate ::
       Act.download "L" "22" ::
       ((dlRun (DlOutcome.ok [⟨"downloading", some 1, some 2⟩]
          ⟨"v.mp4", "T", "U"⟩)).1 ++
        [dispatchAct ⟨"v.mp4", "T", "U"⟩, Act.tmpRelease, Act.delSession 1,
         Act.editText completeMsg])) :=
  (download_effect_order 1 "22"
    (DlOutcome.ok [⟨"downloading", some 1, some 2⟩] ⟨"v.mp4", "T", "U"⟩)
    [(1, ⟨"L", ⟨"T", []⟩⟩)] ⟨"L", ⟨"T", []⟩⟩ (by decide)).1
    ⟨"v.mp4", "T", "U"⟩ rfl

/-- C8: the welcome keyboard's only button carries the callback payload
`start`; every callback event is routed to `format_selected` with the
payload as format id; so pressing it without a session yields the
send-a-link-first warning, and with an active session it starts a real
download attempt with the literal `start` as format identifier. -/
theorem start_button_routing :
    start_actions =
      [Act.replyMarkup welcomeMsg [[("🚀 Get Started", "start")]]] ∧
    (∀ (uid : Nat) (data : String) (dl : DlOutcome)
      (probeRes : Except String Info) (m : Sessions),
      dispatch (Event.callback uid data) dl probeRes m =
        format_selected uid data dl m) ∧
    (∀ (uid : Nat) (dl : DlOutcome) (probeRes : Except String Info)
      (m : Sessions), lookupSession m uid = none →
      dispatch (Event.callback uid "start") dl probeRes m =
        (m, [Act.answerCb noSessionWarnMsg])) ∧
    (∀ (uid : Nat) (dl : DlOutcome) (probeRes : Except String Info)
      (m : Sessions) (sess : Session), lookupSession m uid = some sess →
      Act.download sess.link "start" ∈
        (dispatch (Event.callback uid "start") dl probeRes m).2) := by
  refine ⟨rfl, fun _ _ _ _ _ => rfl, ?_, ?_⟩
  · intro uid dl probeRes m h
    simp [dispatch, format_selected, h]
  · intro uid dl probeRes m sess h
    show Act.download sess.link "start" ∈
      (format_selected uid "start" dl m).2
    cases hres : (dlRun dl).2 with
    | ok r =>
        rw [format_selected_ok_trace uid "start" dl m sess r h hres]
        simp
    | error e =>
        rw [format_selected_err_trace uid "start" dl m sess e h hres]
        simp

/-- Witness for C8: pressing Get Started with no session answers the
warning; with an active session the download is attempted with format id
`start`. -/
theorem start_button_routing_witness :
    dispatch (Event.callback 5 "start") (DlOutcome.err [] "x")
      (Except.error "p") [] = ([], [Act.answerCb noSessionWarnMsg]) ∧
    Act.download "L" "start" ∈
      (dispatch (Event.callback 5 "start") (DlOutcome.err [] "x")
        (Except.error "p") [(5, ⟨"L", ⟨"T", []⟩⟩)]).2 :=
  ⟨start_button_routing.2.2.1 5 (DlOutcome.err [] "x") (Except.error "p")
      [] rfl,
   start_button_routing.2.2.2 5 (DlOutcome.err [] "x") (Except.error "p")
      [(5, ⟨"L", ⟨"T", []⟩⟩)] ⟨"L", ⟨"T", []⟩⟩ (by decide)⟩

/-- C9: the progress hook computes the displayed ratio as
`downloaded_bytes / total_bytes`, substituting `0` and `1` only when the
respective key is absent; a `downloading` event whose `total_bytes` is
present and equal to `0` makes the division raise `ZeroDivisionError` — the
defaulting guard does not cover a present-but-zero value. -/
theorem progress_hook_division :
    (∀ (d : ProgressEvent) (db tb : Int), d.status = "downloading" →
      d.downloaded_bytes = some db → d.total_bytes = some tb → tb ≠ 0 →
      progressHook d = Except.ok (some ((db : ℚ) / (tb : ℚ)))) ∧
    (∀ (d : ProgressEvent) (db : Int), d.status = "downloading" →
      d.downloaded_bytes = some db → d.total_bytes = none →
      progressHook d = Except.ok (some ((db : ℚ) / ((1 : Int) : ℚ)))) ∧
    (∀ (d : ProgressEvent) (tb : Int), d.status = "downloading" →
      d.downloaded_bytes = none → d.total_bytes = some tb → tb ≠ 0 →
      progressHook d = Except.ok (some (((0 : Int) : ℚ) / (tb : ℚ)))) ∧
    (∃ d : ProgressEvent, d.status = "downloading" ∧
      d.total_bytes = some 0 ∧
      progressHook d = Except.error "ZeroDivisionError: division by zero") := by
  refine ⟨?_, ?_, ?_, ⟨⟨"downloading", some 5, some 0⟩, rfl, rfl, ?_⟩⟩
  · intro d db tb hs hdb htb hz
    simp [progressHook, hs, hdb, htb, hz]
  · intro d db hs hdb htb
    simp [progressHook, hs, hdb, htb]
  · intro d tb hs hdb htb hz
    simp [progressHook, hs, hdb, htb, hz]
  · simp [progressHook]

/-- Witness for C9: a concrete half-done chunk evaluates to the ratio
`3 / 4`. -/
theorem progress_hook_division_witness :
    progressHook ⟨"downloading", some 3, some 4⟩ =
      Except.ok (some (((3 : Int) : ℚ) / ((4 : Int) : ℚ))) :=
  progress_hook_division.1 ⟨"downloading", some 3, some 4⟩ 3 4 rfl rfl rfl
    (by decide)

/-- C10: every session map reachable from the initial empty map holds at
most one entry per user identifier, and a new valid link from a user with
an active session silently replaces that session with the freshly probed
link and metadata (last write wins). -/
theorem session_uniqueness_last_write_wins :
    (∀ m, Reachable m → ∀ uid, (sessionKeys m).count uid ≤ 1) ∧
    (∀ (m : Sessions) (uid : Nat) (old : Session) (text : String)
      (info : Info), lookupSession m uid = some old →
      (containsSub (pyStrip text) "youtube.com" = true ∨
       containsSub (pyStrip text) "youtu.be" = true) →
      lookupSession
        (handle_youtube_link uid text (Except.ok info) m).1 uid =
        some { link := pyStrip text, info := info }) := by
  constructor
  · intro m hm uid
    exact List.nodup_iff_count_le_one.mp (reachable_nodup_keys m hm) uid
  · intro m uid old text info hl hacc
    have hb : (containsSub (pyStrip text) "youtube.com" ||
        containsSub (pyStrip text) "youtu.be") = true := by
      rcases hacc with h | h <;> simp [h]
    simp [handle_youtube_link, hb, lookup_insert_self]

/-- Witness for C10: the empty map is reachable and duplicate-free, and a
second link for user 7 overwrites the stored session. -/
theorem session_uniqueness_last_write_wins_witness :
    (sessionKeys ([] : Sessions)).count 0 ≤ 1 ∧
    lookupSession (handle_youtube_link 7 "https://youtu.be/new"
      (Except.ok ⟨"N", []⟩) [(7, ⟨"https://youtu.be/old", ⟨"O", []⟩⟩)]).1 7 =
      some ⟨pyStrip "https://youtu.be/new", ⟨"N", []⟩⟩ :=
  ⟨session_uniqueness_last_write_wins.1 [] Reachable.init 0,
   session_uniqueness_last_write_wins.2
     [(7, ⟨"https://youtu.be/old", ⟨"O", []⟩⟩)] 7
     ⟨"https://youtu.be/old", ⟨"O", []⟩⟩ "https://youtu.be/new" ⟨"N", []⟩
     (by decide) (Or.inr (by decide))⟩
